import Mathlib

/-!
Verification of the Ontario_taxapp frontend against its specification.

The repository's executable numerics live in the frontend:
* `services/mockApi.ts` (`generateMockAdvice`) — the mock advice generator
  that produces the two yearly projection sequences and summary metrics;
* `components/InputForm.tsx` — the boundary form: `validateForm`,
  `handleSubmit`, and the checkbox/text-field state handlers;
* `components/ResultsDashboard.tsx` — `formatCurrency`.

Conventions of the shallow embedding:
* JavaScript numbers are modelled as exact rationals (`ℚ`); integer-valued
  quantities (ages, years, counts) as `ℤ` or `ℕ`.
* The wall clock (`new Date().getFullYear()`) is threaded as an explicit
  `currentYear : ℤ` parameter.
* A numeric form text field is modelled by the outcome of parsing it:
  blank (`empty`), non-blank but not parseable (`nan`), or parsing to a
  number (`num q`, where `q` is the `parseFloat` value).  `parseInt`, which
  the form applies to integer fields of the same strings, is modelled as
  truncation toward zero of that value; the two agree on decimal numerals.
* Fallible code returns `Except`/`Option`; the mock generator's failure on
  an empty projection array (indexing `array[length - 1]` of `[]`, a
  JavaScript `TypeError`) is an `Except.error`.  The error vocabulary also
  names the spec's `ValidationError` so that statements can distinguish
  which failure actually occurs.
* The free-text `explanation_text` prose of the mock response is not
  modelled (pure string interpolation of the same numbers; no claim
  depends on it), and the artificial `setTimeout` delay is dropped.
-/

namespace MockApi

/-- Spouse record of the `ScenarioInput` consumed by `mockApi.ts`
(the older `types/api.ts` interface, whose fields the mock reads). -/
structure SpouseInfo where
  age : ℤ
  rrsp_balance : ℚ
  other_income : ℚ
deriving DecidableEq

/-- The `ScenarioInput` interface that `generateMockAdvice` destructures
(`age`, `rrsp_balance`, `life_expectancy_years`, `expect_return_pct`,
`other_taxable_income`, `spouse`). -/
structure ScenarioInput where
  age : ℤ
  rrsp_balance : ℚ
  defined_benefit_pension : ℚ
  cpp : ℚ
  oas : ℚ
  tfsa_balance : ℚ
  other_taxable_income : ℚ
  spouse : Option SpouseInfo
  desired_spending : ℚ
  expect_return_pct : ℚ
  life_expectancy_years : ℤ
  province : String
  start_year : Option ℤ
deriving DecidableEq

/-- One element of the `yearly_data` arrays built by `generateMockAdvice`
(the anonymous object literal returned from the two `map` callbacks). -/
structure YearlyRecord where
  year : ℤ
  age : ℤ
  start_rrif : ℚ
  withdrawal_amount : ℚ
  end_rrif : ℚ
  income : ℚ
  tax_paid : ℚ
  net_income : ℚ
  oas_clawback : ℚ
deriving DecidableEq

/-- The `summary_metrics` object literal. -/
structure SummaryMetrics where
  total_tax_paid : ℚ
  terminal_rrif_balance : ℚ
  terminal_tax_estimate : ℚ
  avg_annual_tax_rate : ℚ
  years_oas_clawback : ℚ
deriving DecidableEq

/-- A strategy entry of the mock response (`yearly_data` plus
`summary_metrics`; the optimized strategy's prose field is not modelled). -/
structure StrategyData where
  yearly_data : List YearlyRecord
  summary_metrics : SummaryMetrics
deriving DecidableEq

/-- The `savings_summary` object literal. -/
structure SavingsSummary where
  total_tax_saved : ℚ
  terminal_tax_saved : ℚ
deriving DecidableEq

/-- The `results` object literal of the mock response. -/
structure MockResults where
  minimum_only_strategy : StrategyData
  optimized_strategy : StrategyData
  savings_summary : SavingsSummary
deriving DecidableEq

/-- The mock response object (`success`, `results`, `message`). -/
structure AdviceResponse where
  success : Bool
  results : MockResults
  message : String
deriving DecidableEq

/-- Failure vocabulary.  The spec's taxonomy names `ValidationError`
(§7); the only failure the mock code can actually produce is the
JavaScript `TypeError` from reading `.end_rrif` of
`yearlyData[yearlyData.length - 1]` when the array is empty. -/
inductive MockError where
  | validationError
  | typeError
deriving DecidableEq

/-- The `map` callback producing year `yearOffset` of
`minimumYearlyData`:

`minimumWithdrawal = yearOffset === 0 ? 0 : (rrsp_balance * 0.05) / (years - yearOffset)`;
`remainingRrif = Math.max(0, rrsp_balance - minimumWithdrawal * yearOffset)`. -/
def minimumYearRecord (s : ScenarioInput) (currentYear : ℤ) (yearOffset : ℕ) :
    YearlyRecord :=
  let years : ℚ := (s.life_expectancy_years : ℚ)
  let minimumWithdrawal : ℚ :=
    if yearOffset = 0 then 0
    else (s.rrsp_balance * (5 / 100)) / (years - (yearOffset : ℚ))
  let remainingRrif : ℚ :=
    max 0 (s.rrsp_balance - minimumWithdrawal * (yearOffset : ℚ))
  { year := currentYear + (yearOffset : ℤ)
    age := s.age + (yearOffset : ℤ)
    start_rrif := remainingRrif + minimumWithdrawal
    withdrawal_amount := minimumWithdrawal
    end_rrif := remainingRrif
    income := minimumWithdrawal + s.other_taxable_income
    tax_paid := (minimumWithdrawal + s.other_taxable_income) * (20 / 100)
    net_income := (minimumWithdrawal + s.other_taxable_income) * (80 / 100)
    oas_clawback := 0 }

/-- The `map` callback producing year `yearOffset` of
`optimizedYearlyData`: withdraw at 8% scaling while
`yearOffset < years / 3`, at 4% scaling afterwards. -/
def optimizedYearRecord (s : ScenarioInput) (currentYear : ℤ) (yearOffset : ℕ) :
    YearlyRecord :=
  let years : ℚ := (s.life_expectancy_years : ℚ)
  let optimalWithdrawal : ℚ :=
    if (yearOffset : ℚ) < years / 3 then
      (s.rrsp_balance * (8 / 100)) / (years - (yearOffset : ℚ))
    else
      (s.rrsp_balance * (4 / 100)) / (years - (yearOffset : ℚ))
  let remainingRrif : ℚ :=
    max 0 (s.rrsp_balance - optimalWithdrawal * (yearOffset : ℚ))
  { year := currentYear + (yearOffset : ℤ)
    age := s.age + (yearOffset : ℤ)
    start_rrif := remainingRrif + optimalWithdrawal
    withdrawal_amount := optimalWithdrawal
    end_rrif := remainingRrif
    income := optimalWithdrawal + s.other_taxable_income
    tax_paid := (optimalWithdrawal + s.other_taxable_income) * (18 / 100)
    net_income := (optimalWithdrawal + s.other_taxable_income) * (82 / 100)
    oas_clawback := 0 }

/-- `yearsArray.map(...)` for the minimum-only strategy;
`Array.from({length: years})` yields offsets `0 .. years-1` (and the empty
array for a non-positive `years`, hence `Int.toNat`). -/
def minimumYearlyData (s : ScenarioInput) (currentYear : ℤ) : List YearlyRecord :=
  (List.range s.life_expectancy_years.toNat).map (minimumYearRecord s currentYear)

/-- `yearsArray.map(...)` for the optimized strategy. -/
def optimizedYearlyData (s : ScenarioInput) (currentYear : ℤ) : List YearlyRecord :=
  (List.range s.life_expectancy_years.toNat).map (optimizedYearRecord s currentYear)

/-- `yearlyData.reduce((sum, year) => sum + year.tax_paid, 0)`. -/
def totalTaxPaid (yearlyData : List YearlyRecord) : ℚ :=
  yearlyData.foldl (fun sum r => sum + r.tax_paid) 0

/-- Body of `generateMockAdvice` on the two already-built yearly arrays.
The terminal-balance fields read `yearlyData[yearlyData.length - 1]`,
which on an empty array is `undefined` and raises a `TypeError` when
`.end_rrif` is read; this is the `Except.error MockError.typeError`
branch. -/
def adviceFrom (minD optD : List YearlyRecord) : Except MockError AdviceResponse :=
  match minD.getLast?, optD.getLast? with
  | some lastMin, some lastOpt =>
      .ok
        { success := true
          results :=
            { minimum_only_strategy :=
                { yearly_data := minD
                  summary_metrics :=
                    { total_tax_paid := totalTaxPaid minD
                      terminal_rrif_balance := lastMin.end_rrif
                      terminal_tax_estimate := lastMin.end_rrif * (3 / 10)
                      avg_annual_tax_rate := 20
                      years_oas_clawback := 0 } }
              optimized_strategy :=
                { yearly_data := optD
                  summary_metrics :=
                    { total_tax_paid := totalTaxPaid optD
                      terminal_rrif_balance := lastOpt.end_rrif
                      terminal_tax_estimate := lastOpt.end_rrif * (1 / 4)
                      avg_annual_tax_rate := 18
                      years_oas_clawback := 0 } }
              savings_summary :=
                { total_tax_saved := totalTaxPaid minD - totalTaxPaid optD
                  terminal_tax_saved :=
                    lastMin.end_rrif * (3 / 10) - lastOpt.end_rrif * (1 / 4) } }
          message := "Advice generated successfully" }
  | _, _ => .error .typeError

/-- `generateMockAdvice` composed with its two `map` passes
(the `await`ed `setTimeout` delay carries no data and is dropped). -/
def generateMockAdvice (s : ScenarioInput) (currentYear : ℤ) :
    Except MockError AdviceResponse :=
  adviceFrom (minimumYearlyData s currentYear) (optimizedYearlyData s currentYear)

/-- Erase the calendar-year label of a yearly record (observer used to
state which parts of a projection are independent of the wall clock). -/
def stripYear (r : YearlyRecord) : YearlyRecord :=
  { r with year := 0 }

/-- Observer projecting a response onto its two summary-metric blocks and
the savings summary. -/
def responseSummaries (resp : AdviceResponse) :
    SummaryMetrics × SummaryMetrics × SavingsSummary :=
  (resp.results.minimum_only_strategy.summary_metrics,
   resp.results.optimized_strategy.summary_metrics,
   resp.results.savings_summary)

/-- Scenario builder for the concrete example inputs appearing in the
theorems below: `age`/`rrsp_balance`/`life_expectancy_years` vary, every
other field is a fixed innocuous value. -/
def mkScenario (balance : ℚ) (years : ℤ) (age : ℤ) : ScenarioInput :=
  { age := age, rrsp_balance := balance, defined_benefit_pension := 0
    cpp := 0, oas := 0, tfsa_balance := 0, other_taxable_income := 0
    spouse := none, desired_spending := 0, expect_return_pct := 5
    life_expectancy_years := years, province := "ON", start_year := none }

end MockApi

instance {ε α : Type} [DecidableEq ε] [DecidableEq α] : DecidableEq (Except ε α) :=
  fun x y =>
    match x, y with
    | .ok a, .ok b =>
        if h : a = b then .isTrue (by rw [h])
        else .isFalse (by intro hc; cases hc; exact h rfl)
    | .error a, .error b =>
        if h : a = b then .isTrue (by rw [h])
        else .isFalse (by intro hc; cases hc; exact h rfl)
    | .ok _, .error _ => .isFalse (by intro hc; cases hc)
    | .error _, .ok _ => .isFalse (by intro hc; cases hc)


namespace InputForm

/-- Outcome of parsing one numeric text-field string: the string is blank
(empty or whitespace only), non-blank but `parseFloat` yields `NaN`, or
non-blank and `parseFloat` yields the number `q`. -/
inductive FieldVal where
  | empty
  | nan
  | num (q : ℚ)
deriving DecidableEq

/-- `SpouseInfoState` of `InputForm.tsx` (all six fields are numeric
text-field strings). -/
structure SpouseInfoState where
  age : FieldVal
  rrsp_balance : FieldVal
  employment_income : FieldVal
  pension_income : FieldVal
  cpp_oas_income : FieldVal
  investment_income : FieldVal
deriving DecidableEq

/-- `NonRegState` of `InputForm.tsx`. -/
structure NonRegState where
  balance : FieldVal
  unrealized_capital_gains : FieldVal
deriving DecidableEq

/-- `FormDataState` of `InputForm.tsx`.  Numeric text fields are
`FieldVal`; select fields and the province text field are `String`; the
`errors` React state is omitted because `validateForm` recomputes it from
`formData` alone and submission depends only on its boolean result. -/
structure FormDataState where
  age : FieldVal
  retirement_status : String
  retirement_age : FieldVal
  rrsp_balance : FieldVal
  employment_income : FieldVal
  pension_type : String
  pension_income : FieldVal
  cpp_start_age : FieldVal
  cpp_amount : FieldVal
  oas_start_age : FieldVal
  oas_amount : FieldVal
  other_investment_income : FieldVal
  has_spouse : Bool
  spouse_details : Option SpouseInfoState
  beneficiary_intent : String
  desired_spending : FieldVal
  tax_target : String
  tfsa_balance : FieldVal
  has_non_registered : Bool
  non_registered_details : Option NonRegState
  health_considerations : String
  planning_horizon_years : FieldVal
  expect_return_pct : FieldVal
  inflation_rate_pct : FieldVal
  target_rrif_depletion_age : FieldVal
  province : String
  future_residence_intent : String
  start_year : FieldVal
deriving DecidableEq

/-- `initialSpouseState` (`age`/`rrsp_balance` empty, the rest `'0'`). -/
def initialSpouseState : SpouseInfoState :=
  { age := .empty, rrsp_balance := .empty, employment_income := .num 0
    pension_income := .num 0, cpp_oas_income := .num 0, investment_income := .num 0 }

/-- `initialNonRegState` (both `'0'`). -/
def initialNonRegState : NonRegState :=
  { balance := .num 0, unrealized_capital_gains := .num 0 }

/-- `initialFormData`; `start_year` defaults to
`(currentYear + 1).toString()`. -/
def initialFormData (currentYear : ℤ) : FormDataState :=
  { age := .empty, retirement_status := "Retired", retirement_age := .empty
    rrsp_balance := .empty, employment_income := .num 0, pension_type := "None"
    pension_income := .num 0, cpp_start_age := .num 65, cpp_amount := .num 0
    oas_start_age := .num 65, oas_amount := .num 0
    other_investment_income := .num 0, has_spouse := false
    spouse_details := none, beneficiary_intent := "Spouse/Partner"
    desired_spending := .empty, tax_target := "Avoid OAS Clawback"
    tfsa_balance := .num 0, has_non_registered := false
    non_registered_details := none, health_considerations := "Average"
    planning_horizon_years := .empty, expect_return_pct := .empty
    inflation_rate_pct := .num 2, target_rrif_depletion_age := .empty
    province := "ON", future_residence_intent := "Remain in Province"
    start_year := .num ((currentYear + 1 : ℤ) : ℚ) }

/-- Whether `validateNumeric` records no error for this field: a required
blank field errors; a non-blank unparseable string errors; a parsed value
errors when below `lo` or above `hi`; an optional blank field never
errors (the `allowEmptyForOptional` flag does not change the outcome). -/
def validateNumericOk (isRequired : Bool) (lo hi : Option ℚ) : FieldVal → Bool
  | .empty => !isRequired
  | .nan => false
  | .num q =>
      (match lo with
       | none => true
       | some m => decide (m ≤ q)) &&
      (match hi with
       | none => true
       | some m => decide (q ≤ m))

/-- Model of `String.prototype.trim`: drop leading and trailing
whitespace.  (Implemented over the character list so that it evaluates
inside the kernel; the built-in `String.trim` does not reduce there.) -/
def jsTrim (s : String) : String :=
  ⟨((s.data.dropWhile Char.isWhitespace).reverse.dropWhile Char.isWhitespace).reverse⟩

/-- `validateRequiredString`: errors exactly when the trimmed string is
empty. -/
def validateRequiredStringOk (s : String) : Bool :=
  !(jsTrim s = "")

/-- The province check `/^[A-Z]{2}$/.test(province.trim())` (the separate
falsiness test on the raw string is subsumed: the empty string also fails
the pattern; `[A-Z]` is the code-point range 65–90). -/
def provinceOk (s : String) : Bool :=
  let t := (jsTrim s).data
  decide (t.length = 2) && t.all (fun c => decide (65 ≤ c.toNat) && decide (c.toNat ≤ 90))

/-- The cross-field check on `target_rrif_depletion_age` vs `age`: it runs
only when both raw strings are truthy and parse (i.e. both fields are
`num`), and errors when `target ≤ age`. -/
def depletionAgeCrossOk (target age : FieldVal) : Bool :=
  match target, age with
  | .num t, .num a => decide (a < t)
  | _, _ => true

/-- The spouse block of `validateForm` (entered only when `has_spouse`
and `spouse_details` are both set). -/
def spouseBlockOk (hasSpouse : Bool) (sp : Option SpouseInfoState) : Bool :=
  match hasSpouse, sp with
  | true, some sp =>
      validateNumericOk true (some 0) (some 120) sp.age &&
      validateNumericOk true (some 0) none sp.rrsp_balance &&
      validateNumericOk true (some 0) none sp.employment_income &&
      validateNumericOk true (some 0) none sp.pension_income &&
      validateNumericOk true (some 0) none sp.cpp_oas_income &&
      validateNumericOk true (some 0) none sp.investment_income
  | _, _ => true

/-- The non-registered block of `validateForm`. -/
def nonRegBlockOk (hasNonReg : Bool) (nr : Option NonRegState) : Bool :=
  match hasNonReg, nr with
  | true, some nr =>
      validateNumericOk true (some 0) none nr.balance &&
      validateNumericOk true (some 0) none nr.unrealized_capital_gains
  | _, _ => true

/-- `validateForm`: conjunction of every per-field check, in source order;
returns the `isValid` flag.  `currentYear` is the lower bound the source
reads from `new Date().getFullYear()` for `start_year`. -/
def validateForm (fd : FormDataState) (currentYear : ℤ) : Bool :=
  validateNumericOk true (some 55) (some 110) fd.age &&
  validateRequiredStringOk fd.retirement_status &&
  validateNumericOk false (some 55) (some 110) fd.retirement_age &&
  validateNumericOk true (some 0) none fd.rrsp_balance &&
  validateNumericOk true (some 0) none fd.employment_income &&
  validateNumericOk true (some 0) none fd.pension_income &&
  validateNumericOk true (some 60) (some 70) fd.cpp_start_age &&
  validateNumericOk true (some 0) none fd.cpp_amount &&
  validateNumericOk true (some 65) (some 70) fd.oas_start_age &&
  validateNumericOk true (some 0) none fd.oas_amount &&
  validateNumericOk true (some 0) none fd.other_investment_income &&
  spouseBlockOk fd.has_spouse fd.spouse_details &&
  validateNumericOk true (some 0) none fd.desired_spending &&
  validateNumericOk true (some 0) none fd.tfsa_balance &&
  nonRegBlockOk fd.has_non_registered fd.non_registered_details &&
  validateNumericOk true (some 1) (some 50) fd.planning_horizon_years &&
  validateNumericOk true (some (-10)) (some 25) fd.expect_return_pct &&
  validateNumericOk true (some 0) (some 10) fd.inflation_rate_pct &&
  validateNumericOk false (some 56) (some 110) fd.target_rrif_depletion_age &&
  depletionAgeCrossOk fd.target_rrif_depletion_age fd.age &&
  provinceOk fd.province &&
  validateNumericOk false (some (currentYear : ℚ)) (some 2050) fd.start_year

/-- `SpouseInfo` of the current `types/api.ts` (the shape `handleSubmit`
builds). -/
structure SpouseInfo where
  age : ℤ
  rrsp_balance : ℚ
  employment_income : ℚ
  pension_income : ℚ
  cpp_oas_income : ℚ
  investment_income : ℚ
deriving DecidableEq

/-- `NonRegisteredAccount` of the current `types/api.ts`. -/
structure NonRegisteredAccount where
  balance : ℚ
  unrealized_capital_gains : ℚ
deriving DecidableEq

/-- `ScenarioInput` of the current `types/api.ts`: the object
`handleSubmit` passes to `onSubmit`. -/
structure ScenarioInput where
  age : ℤ
  retirement_status : String
  retirement_age : Option ℤ
  rrsp_balance : ℚ
  employment_income : ℚ
  pension_type : Option String
  pension_income : ℚ
  cpp_start_age : ℤ
  cpp_amount : ℚ
  oas_start_age : ℤ
  oas_amount : ℚ
  other_investment_income : ℚ
  has_spouse : Bool
  spouse_details : Option SpouseInfo
  beneficiary_intent : Option String
  desired_spending : ℚ
  tax_target : Option String
  tfsa_balance : ℚ
  has_non_registered : Bool
  non_registered_details : Option NonRegisteredAccount
  health_considerations : Option String
  planning_horizon_years : ℤ
  expect_return_pct : ℚ
  inflation_rate_pct : ℚ
  target_rrif_depletion_age : Option ℤ
  province : String
  future_residence_intent : Option String
  start_year : Option ℤ
deriving DecidableEq

/-- Truncation toward zero, the `parseInt` rounding on a string whose
`parseFloat` value is `q`. -/
def ratTrunc (q : ℚ) : ℤ :=
  if 0 ≤ q then ⌊q⌋ else -⌊-q⌋

/-- `safeParseFloat(value)` on a required field: blank or `NaN` becomes
`0`, otherwise the parsed value. -/
def safeParseFloatReq : FieldVal → ℚ
  | .empty => 0
  | .nan => 0
  | .num q => q

/-- `safeParseInt(value)` on a required field. -/
def safeParseIntReq : FieldVal → ℤ
  | .empty => 0
  | .nan => 0
  | .num q => ratTrunc q

/-- `safeParseInt(value, true)` on an optional field: blank or `NaN`
becomes `null`. -/
def safeParseIntOpt : FieldVal → Option ℤ
  | .empty => none
  | .nan => none
  | .num q => some (ratTrunc q)

/-- The `value === "" ? null : value` normalization applied to optional
select values. -/
def emptyToNone (s : String) : Option String :=
  if s = "" then none else some s

/-- The `scenarioData` object `handleSubmit` builds after validation
succeeds, including the two conditional sub-record assignments.
(`?? 0` after a non-optional `safeParse` call is a no-op and is folded
into the parse functions; `pension_type === "None"` maps to `null`.) -/
def buildScenario (fd : FormDataState) : ScenarioInput :=
  { age := safeParseIntReq fd.age
    retirement_status := fd.retirement_status
    retirement_age := safeParseIntOpt fd.retirement_age
    rrsp_balance := safeParseFloatReq fd.rrsp_balance
    employment_income := safeParseFloatReq fd.employment_income
    pension_type := if fd.pension_type = "None" then none else some fd.pension_type
    pension_income := safeParseFloatReq fd.pension_income
    cpp_start_age := safeParseIntReq fd.cpp_start_age
    cpp_amount := safeParseFloatReq fd.cpp_amount
    oas_start_age := safeParseIntReq fd.oas_start_age
    oas_amount := safeParseFloatReq fd.oas_amount
    other_investment_income := safeParseFloatReq fd.other_investment_income
    has_spouse := fd.has_spouse
    spouse_details :=
      match fd.has_spouse, fd.spouse_details with
      | true, some sp =>
          some
            { age := safeParseIntReq sp.age
              rrsp_balance := safeParseFloatReq sp.rrsp_balance
              employment_income := safeParseFloatReq sp.employment_income
              pension_income := safeParseFloatReq sp.pension_income
              cpp_oas_income := safeParseFloatReq sp.cpp_oas_income
              investment_income := safeParseFloatReq sp.investment_income }
      | _, _ => none
    beneficiary_intent := emptyToNone fd.beneficiary_intent
    desired_spending := safeParseFloatReq fd.desired_spending
    tax_target := emptyToNone fd.tax_target
    tfsa_balance := safeParseFloatReq fd.tfsa_balance
    has_non_registered := fd.has_non_registered
    non_registered_details :=
      match fd.has_non_registered, fd.non_registered_details with
      | true, some nr =>
          some
            { balance := safeParseFloatReq nr.balance
              unrealized_capital_gains := safeParseFloatReq nr.unrealized_capital_gains }
      | _, _ => none
    health_considerations := emptyToNone fd.health_considerations
    planning_horizon_years := safeParseIntReq fd.planning_horizon_years
    expect_return_pct := safeParseFloatReq fd.expect_return_pct
    inflation_rate_pct := safeParseFloatReq fd.inflation_rate_pct
    target_rrif_depletion_age := safeParseIntOpt fd.target_rrif_depletion_age
    province := fd.province
    future_residence_intent := emptyToNone fd.future_residence_intent
    start_year := safeParseIntOpt fd.start_year }

/-- `handleSubmit`: the scenario handed to `onSubmit` when `validateForm`
passes, `none` (no `onSubmit` call) otherwise. -/
def handleSubmit (fd : FormDataState) (currentYear : ℤ) : Option ScenarioInput :=
  if validateForm fd currentYear then some (buildScenario fd) else none

/-- Top-level numeric text fields reachable through
`handleTextFieldChange`. -/
inductive NumField where
  | age | retirement_age | rrsp_balance | employment_income | pension_income
  | cpp_start_age | cpp_amount | oas_start_age | oas_amount
  | other_investment_income | desired_spending | tfsa_balance
  | planning_horizon_years | expect_return_pct | inflation_rate_pct
  | target_rrif_depletion_age | start_year

/-- Select fields reachable through `handleSelectChange`. -/
inductive SelectField where
  | retirement_status | pension_type | beneficiary_intent | tax_target
  | health_considerations | future_residence_intent

/-- Spouse sub-fields (`name="spouse_details.X"`). -/
inductive SpouseField where
  | age | rrsp_balance | employment_income | pension_income
  | cpp_oas_income | investment_income

/-- Non-registered sub-fields (`name="non_registered_details.X"`). -/
inductive NonRegField where
  | balance | unrealized_capital_gains

/-- One user interaction delivered to the form's change handlers. -/
inductive FormEvent where
  | checkboxSpouse (checked : Bool)
  | checkboxNonReg (checked : Bool)
  | textNum (f : NumField) (v : FieldVal)
  | textProvince (v : String)
  | textSpouse (f : SpouseField) (v : FieldVal)
  | textNonReg (f : NonRegField) (v : FieldVal)
  | selectField (f : SelectField) (v : String)

/-- Field update performed by `handleTextFieldChange` for a top-level
numeric field. -/
def setNumField (fd : FormDataState) : NumField → FieldVal → FormDataState
  | .age, v => { fd with age := v }
  | .retirement_age, v => { fd with retirement_age := v }
  | .rrsp_balance, v => { fd with rrsp_balance := v }
  | .employment_income, v => { fd with employment_income := v }
  | .pension_income, v => { fd with pension_income := v }
  | .cpp_start_age, v => { fd with cpp_start_age := v }
  | .cpp_amount, v => { fd with cpp_amount := v }
  | .oas_start_age, v => { fd with oas_start_age := v }
  | .oas_amount, v => { fd with oas_amount := v }
  | .other_investment_income, v => { fd with other_investment_income := v }
  | .desired_spending, v => { fd with desired_spending := v }
  | .tfsa_balance, v => { fd with tfsa_balance := v }
  | .planning_horizon_years, v => { fd with planning_horizon_years := v }
  | .expect_return_pct, v => { fd with expect_return_pct := v }
  | .inflation_rate_pct, v => { fd with inflation_rate_pct := v }
  | .target_rrif_depletion_age, v => { fd with target_rrif_depletion_age := v }
  | .start_year, v => { fd with start_year := v }

/-- Field update performed by `handleSelectChange`. -/
def setSelectField (fd : FormDataState) : SelectField → String → FormDataState
  | .retirement_status, v => { fd with retirement_status := v }
  | .pension_type, v => { fd with pension_type := v }
  | .beneficiary_intent, v => { fd with beneficiary_intent := v }
  | .tax_target, v => { fd with tax_target := v }
  | .health_considerations, v => { fd with health_considerations := v }
  | .future_residence_intent, v => { fd with future_residence_intent := v }

/-- Spouse sub-record update. -/
def setSpouseField (sp : SpouseInfoState) : SpouseField → FieldVal → SpouseInfoState
  | .age, v => { sp with age := v }
  | .rrsp_balance, v => { sp with rrsp_balance := v }
  | .employment_income, v => { sp with employment_income := v }
  | .pension_income, v => { sp with pension_income := v }
  | .cpp_oas_income, v => { sp with cpp_oas_income := v }
  | .investment_income, v => { sp with investment_income := v }

/-- Non-registered sub-record update. -/
def setNonRegField (nr : NonRegState) : NonRegField → FieldVal → NonRegState
  | .balance, v => { nr with balance := v }
  | .unrealized_capital_gains, v => { nr with unrealized_capital_gains := v }

/-- The state transition of the form: `handleCheckboxChange` sets the flag
and creates/clears the sub-record together; `handleTextFieldChange` on a
`spouse_details.X` / `non_registered_details.X` name updates the
sub-record only when it is present (`prev.spouse_details ? ... : null`). -/
def applyEvent (fd : FormDataState) : FormEvent → FormDataState
  | .checkboxSpouse c =>
      { fd with has_spouse := c
                spouse_details := if c then some initialSpouseState else none }
  | .checkboxNonReg c =>
      { fd with has_non_registered := c
                non_registered_details := if c then some initialNonRegState else none }
  | .textNum f v => setNumField fd f v
  | .textProvince v => { fd with province := v }
  | .textSpouse f v =>
      { fd with spouse_details := fd.spouse_details.map (fun sp => setSpouseField sp f v) }
  | .textNonReg f v =>
      { fd with non_registered_details :=
          fd.non_registered_details.map (fun nr => setNonRegField nr f v) }
  | .selectField f v => setSelectField fd f v

/-- Form states reachable from `initialFormData` through the change
handlers. -/
inductive Reachable (currentYear : ℤ) : FormDataState → Prop
  | init : Reachable currentYear (initialFormData currentYear)
  | step {fd : FormDataState} (e : FormEvent) :
      Reachable currentYear fd → Reachable currentYear (applyEvent fd e)

/-- A concrete interaction sequence that fills every required field with
an in-range value, including turning the spouse section on and filling
its two blank fields. -/
def validEvents : List FormEvent :=
  [.textNum .age (.num 65),
   .textNum .rrsp_balance (.num 100000),
   .textNum .desired_spending (.num 50000),
   .textNum .planning_horizon_years (.num 25),
   .textNum .expect_return_pct (.num 5),
   .checkboxSpouse true,
   .textSpouse .age (.num 63),
   .textSpouse .rrsp_balance (.num 50000)]

/-- The form state reached by `validEvents` from the 2025 initial state. -/
def fdValid : FormDataState :=
  validEvents.foldl applyEvent (initialFormData 2025)

/-- The 2025 initial state with the age field set to `50`. -/
def fdAgeLow : FormDataState :=
  applyEvent (initialFormData 2025) (.textNum .age (.num 50))

/-- The 2025 initial state with the planning horizon set to `0`. -/
def fdHorizonZero : FormDataState :=
  applyEvent (initialFormData 2025) (.textNum .planning_horizon_years (.num 0))

end InputForm

namespace ResultsDashboard

/-- The `number | null | undefined` argument of `formatCurrency`
(`NaN` is a number value in JavaScript). -/
inductive NumInput where
  | jsNull
  | jsUndefined
  | jsNaN
  | val (q : ℚ)
deriving DecidableEq

/-- Round half away from zero, the default `Intl.NumberFormat` rounding
used by `toLocaleString`. -/
def roundHalfAway (q : ℚ) : ℤ :=
  if 0 ≤ q then ⌊q + 1 / 2⌋ else -⌊-q + 1 / 2⌋

/-- Insert a comma after every third digit of a least-significant-first
digit list. -/
def groupRev : List Char → List Char
  | a :: b :: c :: d :: rest => a :: b :: c :: ',' :: groupRev (d :: rest)
  | l => l

/-- Model of `value.toLocaleString('en-CA', { style: 'currency',
currency: 'CAD', minimumFractionDigits: 0, maximumFractionDigits: 0 })`:
round to a whole dollar amount, group digits by thousands, prefix `$`
(after the sign for negatives). -/
def toLocaleStringCAD (q : ℚ) : String :=
  let n := roundHalfAway q
  let digits := (groupRev (Nat.toDigits 10 n.natAbs).reverse).reverse
  (if n < 0 then "-$" else "$") ++ String.mk digits

/-- `formatCurrency` of `ResultsDashboard.tsx` (both copies in the
repository are identical): the default string for `null`, `undefined` and
`NaN`, the formatted value otherwise. -/
def formatCurrency (value : NumInput) (defaultValue : String := "$0") : String :=
  match value with
  | .jsNull => defaultValue
  | .jsUndefined => defaultValue
  | .jsNaN => defaultValue
  | .val q => toLocaleStringCAD q

end ResultsDashboard

namespace TaxRules

/-- Modelled from the spec: the tax-calculator `benefitClawback` lives in
the backend, which is absent from the repository snapshot (the mock API
hardcodes `oas_clawback: 0`); this follows spec §4.2 verbatim:
`clawback = max(0, min(benefitReceived, rate * max(0, netIncomeExcludingBenefit + benefitReceived - threshold)))`. -/
def benefitClawback (netIncomeExcludingBenefit benefitReceived threshold rate : ℚ) : ℚ :=
  max 0 (min benefitReceived
    (rate * max 0 (netIncomeExcludingBenefit + benefitReceived - threshold)))

end TaxRules

namespace MockApi

theorem minimumYearlyData_length (s : ScenarioInput) (cy : ℤ) :
    (minimumYearlyData s cy).length = s.life_expectancy_years.toNat := by
  simp [minimumYearlyData]

theorem optimizedYearlyData_length (s : ScenarioInput) (cy : ℤ) :
    (optimizedYearlyData s cy).length = s.life_expectancy_years.toNat := by
  simp [optimizedYearlyData]

theorem minimumYearlyData_get (s : ScenarioInput) (cy : ℤ) (t : ℕ)
    (h : t < (minimumYearlyData s cy).length) :
    (minimumYearlyData s cy).get ⟨t, h⟩ = minimumYearRecord s cy t := by
  simp [minimumYearlyData]

theorem optimizedYearlyData_get (s : ScenarioInput) (cy : ℤ) (t : ℕ)
    (h : t < (optimizedYearlyData s cy).length) :
    (optimizedYearlyData s cy).get ⟨t, h⟩ = optimizedYearRecord s cy t := by
  simp [optimizedYearlyData]

end MockApi

open MockApi in
/-- C1: the claimed cross-year continuity fails on the mock generator:
for the scenario (balance 500,000, horizon 3, age 65) run in 2025 under
the minimum-only strategy, year 1 ends with 487,500 while year 2 starts
with 475,000. -/
theorem c1_continuity_counterexample :
    ((minimumYearlyData (mkScenario 500000 3 65) 2025).get
        ⟨1, by rw [minimumYearlyData_length]; decide⟩).end_rrif ≠
      ((minimumYearlyData (mkScenario 500000 3 65) 2025).get
        ⟨2, by rw [minimumYearlyData_length]; decide⟩).start_rrif := by
  rw [minimumYearlyData_get, minimumYearlyData_get]
  simp only [minimumYearRecord, mkScenario]
  norm_num

open MockApi in
/-- C1 (amended): the mock generator does not chain consecutive years;
what holds instead is the within-year identity: in every yearly record of
either strategy, `start_rrif - withdrawal_amount = end_rrif`. -/
theorem c1_within_year_consistency (s : ScenarioInput) (cy : ℤ) (r : YearlyRecord)
    (h : r ∈ minimumYearlyData s cy ∨ r ∈ optimizedYearlyData s cy) :
    r.start_rrif - r.withdrawal_amount = r.end_rrif := by
  rcases h with h | h
  · unfold minimumYearlyData at h
    obtain ⟨t, ht, heq⟩ := List.mem_map.mp h
    subst heq
    simp only [minimumYearRecord]
    ring
  · unfold optimizedYearlyData at h
    obtain ⟨t, ht, heq⟩ := List.mem_map.mp h
    subst heq
    simp only [optimizedYearRecord]
    ring

open MockApi in
/-- Witness for C1 (amended) at the one-year scenario. -/
theorem c1_within_year_consistency_witness :
    (minimumYearRecord (mkScenario 1000 1 65) 2025 0).start_rrif -
        (minimumYearRecord (mkScenario 1000 1 65) 2025 0).withdrawal_amount =
      (minimumYearRecord (mkScenario 1000 1 65) 2025 0).end_rrif :=
  c1_within_year_consistency (mkScenario 1000 1 65) 2025 _
    (Or.inl (List.mem_map.mpr ⟨0, by decide, rfl⟩))

open MockApi in
/-- C2: the minimum-only withdrawal for age 65 on a balance of 500,000 is
not `500000/(90-65) = 20000`: the mock's first-year (age-65) withdrawal
is `0` (horizon 25, run in 2025). -/
theorem c2_counterexample :
    ((minimumYearlyData (mkScenario 500000 25 65) 2025).get
        ⟨0, by rw [minimumYearlyData_length]; decide⟩).withdrawal_amount = 0 ∧
      ((minimumYearlyData (mkScenario 500000 25 65) 2025).get
        ⟨0, by rw [minimumYearlyData_length]; decide⟩).withdrawal_amount ≠ 20000 := by
  rw [minimumYearlyData_get]
  constructor
  · rfl
  · norm_num [minimumYearRecord]

open MockApi in
/-- C2 (amended): the mock's minimum-only withdrawal ignores the age and
the `1/(90-age)` factor entirely: year 0 withdraws `0`, and year `t ≥ 1`
withdraws `rrsp_balance * 0.05 / (horizon - t)`. -/
theorem c2_minimum_withdrawal_formula (s : ScenarioInput) (cy : ℤ) (t : ℕ)
    (h : t < (minimumYearlyData s cy).length) :
    ((minimumYearlyData s cy).get ⟨t, h⟩).withdrawal_amount =
      if t = 0 then 0
      else s.rrsp_balance * (5 / 100) / ((s.life_expectancy_years : ℚ) - (t : ℚ)) := by
  rw [minimumYearlyData_get]
  rfl

open MockApi in
/-- Witness for C2 (amended): on the age-65 scenario (balance 500,000,
horizon 25) year 1 withdraws `500000 * 0.05 / 24`. -/
theorem c2_minimum_withdrawal_formula_witness :
    ((minimumYearlyData (mkScenario 500000 25 65) 2025).get
        ⟨1, by rw [minimumYearlyData_length]; decide⟩).withdrawal_amount =
      if (1 : ℕ) = 0 then 0
      else (mkScenario 500000 25 65).rrsp_balance * (5 / 100) /
        (((mkScenario 500000 25 65).life_expectancy_years : ℚ) - ((1 : ℕ) : ℚ)) :=
  c2_minimum_withdrawal_formula (mkScenario 500000 25 65) 2025 1
    (by rw [minimumYearlyData_length]; decide)

/-- C5: the benefit clawback (modelled from the spec, absent from the
frontend snapshot) is zero at or below the threshold and never exceeds
the (non-negative) benefit received. -/
theorem c5_benefit_clawback_bounds (n b t r : ℚ) :
    (n + b ≤ t → TaxRules.benefitClawback n b t r = 0) ∧
      (0 ≤ b → TaxRules.benefitClawback n b t r ≤ b) := by
  constructor
  · intro h
    unfold TaxRules.benefitClawback
    rw [max_eq_left (by linarith : n + b - t ≤ 0), mul_zero]
    exact max_eq_left (min_le_right b 0)
  · intro hb
    exact max_le hb (min_le_left _ _)

/-- Witness for C5 at concrete incomes (threshold 200 not exceeded by
150; benefit 50 bounds the clawback at threshold 120). -/
theorem c5_benefit_clawback_bounds_witness :
    TaxRules.benefitClawback 100 50 200 (15 / 100) = 0 ∧
      TaxRules.benefitClawback 100 50 120 (15 / 100) ≤ 50 :=
  ⟨(c5_benefit_clawback_bounds 100 50 200 (15 / 100)).1 (by norm_num),
   (c5_benefit_clawback_bounds 100 50 120 (15 / 100)).2 (by norm_num)⟩

open ResultsDashboard in
/-- C9: `formatCurrency` is total on `number | null | undefined`: `null`,
`undefined` and `NaN` yield the default string (`'$0'` when omitted), and
a number yields its CAD rendering. -/
theorem c9_formatCurrency_total (d : String) (q : ℚ) :
    formatCurrency .jsNull d = d ∧
      formatCurrency .jsUndefined d = d ∧
      formatCurrency .jsNaN d = d ∧
      formatCurrency .jsNaN = "$0" ∧
      formatCurrency (.val q) d = toLocaleStringCAD q :=
  ⟨rfl, rfl, rfl, rfl, rfl⟩

open MockApi in
/-- C10: every yearly record of either strategy reports a non-negative
end-of-year registered balance (`Math.max(0, ...)`). -/
theorem c10_end_rrif_nonneg (s : ScenarioInput) (cy : ℤ) (r : YearlyRecord)
    (h : r ∈ minimumYearlyData s cy ∨ r ∈ optimizedYearlyData s cy) :
    0 ≤ r.end_rrif := by
  rcases h with h | h
  · unfold minimumYearlyData at h
    obtain ⟨t, ht, heq⟩ := List.mem_map.mp h
    subst heq
    exact le_max_left _ _
  · unfold optimizedYearlyData at h
    obtain ⟨t, ht, heq⟩ := List.mem_map.mp h
    subst heq
    exact le_max_left _ _

open MockApi in
/-- Witness for C10 at an optimized-strategy record. -/
theorem c10_end_rrif_nonneg_witness :
    0 ≤ (optimizedYearRecord (mkScenario 1000 1 65) 2025 0).end_rrif :=
  c10_end_rrif_nonneg (mkScenario 1000 1 65) 2025 _
    (Or.inr (List.mem_map.mpr ⟨0, by decide, rfl⟩))

open MockApi InputForm in
/-- C3: a horizon-0 scenario does make the mock run fail before emitting
any projection, but with the empty-array indexing `TypeError`, not with a
`ValidationError`. -/
theorem c3_counterexample :
    generateMockAdvice (mkScenario 500000 0 65) 2025 =
        Except.error MockError.typeError ∧
      MockError.typeError ≠ MockError.validationError :=
  ⟨rfl, by decide⟩

open MockApi InputForm in
/-- C3 (amended): a non-positive horizon never yields a projection
sequence.  The mock generator maps over an empty offset array and fails
with the `TypeError` while building summary metrics (not a
`ValidationError`); independently, the form's `validateForm` rejects a
planning horizon below 1, so `onSubmit` is never invoked. -/
theorem c3_nonpositive_horizon :
    (∀ (s : MockApi.ScenarioInput) (cy : ℤ), s.life_expectancy_years ≤ 0 →
      minimumYearlyData s cy = [] ∧ optimizedYearlyData s cy = [] ∧
        generateMockAdvice s cy = Except.error MockError.typeError) ∧
      (∀ (fd : FormDataState) (cy : ℤ) (q : ℚ),
        fd.planning_horizon_years = FieldVal.num q → q < 1 →
          validateForm fd cy = false ∧ handleSubmit fd cy = none) := by
  constructor
  · intro s cy h
    have hn : s.life_expectancy_years.toNat = 0 := by omega
    have h1 : minimumYearlyData s cy = [] := by simp [minimumYearlyData, hn]
    have h2 : optimizedYearlyData s cy = [] := by simp [optimizedYearlyData, hn]
    refine ⟨h1, h2, ?_⟩
    rw [generateMockAdvice, h1, h2]
    rfl
  · intro fd cy q hf hq
    have h1 : ¬ (1 ≤ q) := not_le.mpr hq
    have hv : validateForm fd cy = false := by
      simp [validateForm, validateNumericOk, hf, h1]
    exact ⟨hv, by simp [handleSubmit, hv]⟩

open MockApi InputForm in
/-- Witness for C3 (amended) at a horizon-0 scenario and the form state
with horizon `0`. -/
theorem c3_nonpositive_horizon_witness :
    (minimumYearlyData (mkScenario 500000 0 65) 2025 = [] ∧
        optimizedYearlyData (mkScenario 500000 0 65) 2025 = [] ∧
        generateMockAdvice (mkScenario 500000 0 65) 2025 =
          Except.error MockError.typeError) ∧
      (validateForm fdHorizonZero 2025 = false ∧
        handleSubmit fdHorizonZero 2025 = none) :=
  ⟨c3_nonpositive_horizon.1 (mkScenario 500000 0 65) 2025 (by decide),
   c3_nonpositive_horizon.2 fdHorizonZero 2025 0 rfl (by norm_num)⟩

open InputForm in
/-- C7: the form checks `55 ≤ age ≤ 110`; any form state whose age field
parses below 55 or above 110 fails validation and never reaches
`onSubmit`. -/
theorem c7_age_range_check (fd : FormDataState) (cy : ℤ) (q : ℚ)
    (hage : fd.age = FieldVal.num q) (hq : q < 55 ∨ 110 < q) :
    validateForm fd cy = false ∧ handleSubmit fd cy = none := by
  have hv : validateForm fd cy = false := by
    rcases hq with hq | hq
    · have h1 : ¬ (55 ≤ q) := not_le.mpr hq
      simp [validateForm, validateNumericOk, hage, h1]
    · have h1 : ¬ (q ≤ 110) := not_le.mpr hq
      simp [validateForm, validateNumericOk, hage, h1]
  exact ⟨hv, by simp [handleSubmit, hv]⟩

open InputForm in
/-- Witness for C7 at the initial form state with age set to 50. -/
theorem c7_age_range_check_witness :
    validateForm fdAgeLow 2025 = false ∧ handleSubmit fdAgeLow 2025 = none :=
  c7_age_range_check fdAgeLow 2025 50 rfl (Or.inl (by norm_num))

open InputForm in
/-- The checkbox handlers keep each optional sub-record present exactly
when its flag is set; text and select events preserve this. -/
theorem reachable_flag_invariant {cy : ℤ} {fd : FormDataState}
    (h : Reachable cy fd) :
    fd.has_spouse = fd.spouse_details.isSome ∧
      fd.has_non_registered = fd.non_registered_details.isSome := by
  induction h with
  | init => exact ⟨rfl, rfl⟩
  | @step fd' e h ih =>
      cases e with
      | checkboxSpouse c => cases c <;> exact ⟨rfl, ih.2⟩
      | checkboxNonReg c => cases c <;> exact ⟨ih.1, rfl⟩
      | textNum f v => cases f <;> exact ⟨ih.1, ih.2⟩
      | textProvince v => exact ⟨ih.1, ih.2⟩
      | textSpouse f v =>
          refine ⟨?_, ih.2⟩
          have h1 := ih.1
          cases hsd : fd'.spouse_details <;> simp_all [applyEvent]
      | textNonReg f v =>
          refine ⟨ih.1, ?_⟩
          have h2 := ih.2
          cases hnr : fd'.non_registered_details <;> simp_all [applyEvent]
      | selectField f v => cases f <;> exact ⟨ih.1, ih.2⟩

open InputForm in
/-- C8: in every scenario the form passes to `onSubmit` from a reachable
form state, `spouse_details` is present iff `has_spouse` is set, and
`non_registered_details` is present iff `has_non_registered` is set. -/
theorem c8_optional_records_match_flags (cy : ℤ) (fd : FormDataState)
    (sd : ScenarioInput) (hr : Reachable cy fd)
    (hs : handleSubmit fd cy = some sd) :
    sd.has_spouse = sd.spouse_details.isSome ∧
      sd.has_non_registered = sd.non_registered_details.isSome := by
  obtain ⟨h1, h2⟩ := reachable_flag_invariant hr
  unfold handleSubmit at hs
  split at hs
  · obtain rfl : buildScenario fd = sd := Option.some.inj hs
    constructor
    · cases hfs : fd.has_spouse <;> cases hsd : fd.spouse_details <;>
        simp_all [buildScenario]
    · cases hfn : fd.has_non_registered <;>
        cases hnr : fd.non_registered_details <;> simp_all [buildScenario]
  · exact absurd hs (by simp)

open InputForm in
/-- Chaining the form's event handlers preserves reachability. -/
theorem reachable_foldl {cy : ℤ} {fd : FormDataState} (h : Reachable cy fd) :
    ∀ es : List FormEvent, Reachable cy (es.foldl applyEvent fd)
  | [] => h
  | e :: es => reachable_foldl (h.step e) es

open InputForm in
/-- Witness for C8 at the concrete valid interaction sequence (spouse
section enabled and filled). -/
theorem c8_optional_records_match_flags_witness :
    (buildScenario fdValid).has_spouse =
        (buildScenario fdValid).spouse_details.isSome ∧
      (buildScenario fdValid).has_non_registered =
        (buildScenario fdValid).non_registered_details.isSome :=
  c8_optional_records_match_flags 2025 fdValid (buildScenario fdValid)
    (reachable_foldl Reachable.init validEvents) (by decide)

open MockApi in
/-- `totalTaxPaid` ignores the calendar-year label. -/
theorem totalTaxPaid_map_stripYear (l : List YearlyRecord) :
    totalTaxPaid (l.map stripYear) = totalTaxPaid l := by
  simp [totalTaxPaid, List.foldl_map, stripYear]

open MockApi in
/-- `adviceFrom` produces equal summary blocks on inputs that agree up to
the calendar-year label. -/
theorem adviceFrom_summaries_congr {m1 m2 o1 o2 : List YearlyRecord}
    (hm : m1.map stripYear = m2.map stripYear)
    (ho : o1.map stripYear = o2.map stripYear) :
    (adviceFrom m1 o1).map responseSummaries =
      (adviceFrom m2 o2).map responseSummaries := by
  have hmL : m1.getLast?.map stripYear = m2.getLast?.map stripYear := by
    rw [← List.getLast?_map, ← List.getLast?_map, hm]
  have hoL : o1.getLast?.map stripYear = o2.getLast?.map stripYear := by
    rw [← List.getLast?_map, ← List.getLast?_map, ho]
  have hmT : totalTaxPaid m1 = totalTaxPaid m2 := by
    rw [← totalTaxPaid_map_stripYear m1, hm, totalTaxPaid_map_stripYear]
  have hoT : totalTaxPaid o1 = totalTaxPaid o2 := by
    rw [← totalTaxPaid_map_stripYear o1, ho, totalTaxPaid_map_stripYear]
  unfold adviceFrom
  cases h1 : m1.getLast? with
  | none =>
      have h2 : m2.getLast? = none := by
        rw [h1] at hmL
        simpa using hmL.symm
      rw [h2]
  | some a =>
      rw [h1] at hmL
      obtain ⟨b, h2, hab⟩ := Option.map_eq_some'.mp hmL.symm
      rw [h2]
      cases h3 : o1.getLast? with
      | none =>
          have h4 : o2.getLast? = none := by
            rw [h3] at hoL
            simpa using hoL.symm
          rw [h4]
      | some c =>
          rw [h3] at hoL
          obtain ⟨d, h4, hcd⟩ := Option.map_eq_some'.mp hoL.symm
          rw [h4]
          have hend1 : b.end_rrif = a.end_rrif := by
            simpa [stripYear] using congrArg YearlyRecord.end_rrif hab
          have hend2 : d.end_rrif = c.end_rrif := by
            simpa [stripYear] using congrArg YearlyRecord.end_rrif hcd
          simp only [Except.map, responseSummaries, hmT, hoT, hend1, hend2]

open MockApi in
/-- C4: two runs in different calendar years are not identical: the
`year` labels shift (scenario with balance 500,000, horizon 1, run in
2025 vs 2026). -/
theorem c4_counterexample :
    minimumYearlyData (mkScenario 500000 1 65) 2025 ≠
      minimumYearlyData (mkScenario 500000 1 65) 2026 := by
  intro h
  have h2 : (minimumYearlyData (mkScenario 500000 1 65) 2025).get? 0 =
      (minimumYearlyData (mkScenario 500000 1 65) 2026).get? 0 := by rw [h]
  simp [minimumYearlyData, minimumYearRecord, mkScenario, YearlyRecord.mk.injEq] at h2

open MockApi in
/-- C4 (amended): the mock run is a pure function of the scenario and the
wall-clock year; two runs in possibly different calendar years agree on
everything except the per-record `year` label, and their summary metrics
and savings summary are identical. -/
theorem c4_deterministic_up_to_wall_clock (s : ScenarioInput) (cy1 cy2 : ℤ) :
    (minimumYearlyData s cy1).map stripYear =
        (minimumYearlyData s cy2).map stripYear ∧
      (optimizedYearlyData s cy1).map stripYear =
        (optimizedYearlyData s cy2).map stripYear ∧
      (generateMockAdvice s cy1).map responseSummaries =
        (generateMockAdvice s cy2).map responseSummaries := by
  have hmin : (minimumYearlyData s cy1).map stripYear =
      (minimumYearlyData s cy2).map stripYear := by
    simp only [minimumYearlyData, List.map_map]
    rfl
  have hopt : (optimizedYearlyData s cy1).map stripYear =
      (optimizedYearlyData s cy2).map stripYear := by
    simp only [optimizedYearlyData, List.map_map]
    rfl
  exact ⟨hmin, hopt, adviceFrom_summaries_congr hmin hopt⟩

open MockApi in
/-- `end_rrif` of a minimum-strategy record, written out. -/
theorem minimumYearRecord_end_rrif (s : ScenarioInput) (cy : ℤ) (t : ℕ) :
    (minimumYearRecord s cy t).end_rrif =
      max 0 (s.rrsp_balance -
        (if t = 0 then 0
         else s.rrsp_balance * (5 / 100) /
           ((s.life_expectancy_years : ℚ) - (t : ℚ))) * (t : ℚ)) := rfl

open MockApi in
/-- `withdrawal_amount` of a minimum-strategy record, written out. -/
theorem minimumYearRecord_withdrawal (s : ScenarioInput) (cy : ℤ) (t : ℕ) :
    (minimumYearRecord s cy t).withdrawal_amount =
      if t = 0 then 0
      else s.rrsp_balance * (5 / 100) /
        ((s.life_expectancy_years : ℚ) - (t : ℚ)) := rfl

open MockApi in
/-- `end_rrif` of an optimized-strategy record, written out. -/
theorem optimizedYearRecord_end_rrif (s : ScenarioInput) (cy : ℤ) (t : ℕ) :
    (optimizedYearRecord s cy t).end_rrif =
      max 0 (s.rrsp_balance -
        (if (t : ℚ) < (s.life_expectancy_years : ℚ) / 3 then
          s.rrsp_balance * (8 / 100) /
            ((s.life_expectancy_years : ℚ) - (t : ℚ))
         else
          s.rrsp_balance * (4 / 100) /
            ((s.life_expectancy_years : ℚ) - (t : ℚ))) * (t : ℚ)) := rfl

/-- From `B ≤ B*c/(Yq-kq)*kq` with positive balance and denominator,
extract the depletion inequality `Yq - kq ≤ c*kq`. -/
theorem depletion_extract (B c Yq kq : ℚ) (hB : 0 < B) (hpk : 0 < Yq - kq)
    (h : B ≤ B * c / (Yq - kq) * kq) : Yq - kq ≤ c * kq := by
  rw [div_mul_eq_mul_div, le_div_iff₀ hpk, mul_assoc] at h
  exact le_of_mul_le_mul_left h hB

/-- Converse packaging of the depletion inequality. -/
theorem depletion_pack (B c Yq jq : ℚ) (hB : 0 ≤ B) (hpj : 0 < Yq - jq)
    (h : Yq - jq ≤ c * jq) : B ≤ B * c / (Yq - jq) * jq := by
  rw [div_mul_eq_mul_div, le_div_iff₀ hpj, mul_assoc]
  exact mul_le_mul_of_nonneg_left h hB

open MockApi in
/-- Once the minimum-strategy end-of-year balance hits `0`, it is `0` at
every later in-horizon year. -/
theorem minimum_zero_persists (s : ScenarioInput) (cy : ℤ)
    (hB : 0 ≤ s.rrsp_balance) (k j : ℕ) (hkj : k ≤ j)
    (hj : (j : ℚ) < (s.life_expectancy_years : ℚ))
    (h0 : (minimumYearRecord s cy k).end_rrif = 0) :
    (minimumYearRecord s cy j).end_rrif = 0 := by
  rw [minimumYearRecord_end_rrif, max_eq_left_iff] at h0
  rw [minimumYearRecord_end_rrif, max_eq_left_iff]
  set B := s.rrsp_balance with hBdef
  set Yq := (s.life_expectancy_years : ℚ) with hYdef
  have hkj' : (k : ℚ) ≤ (j : ℚ) := by exact_mod_cast hkj
  have hkq : (k : ℚ) < Yq := lt_of_le_of_lt hkj' hj
  rcases hB.lt_or_eq with hBpos | hB0
  · rcases Nat.eq_zero_or_pos k with hk0 | hk1
    · subst hk0
      rw [if_pos rfl] at h0
      simp at h0
      linarith
    · have hkne : k ≠ 0 := Nat.pos_iff_ne_zero.mp hk1
      have hjne : j ≠ 0 := by omega
      rw [if_neg hkne] at h0
      rw [if_neg hjne]
      have hpk : 0 < Yq - (k : ℚ) := by linarith
      have hpj : 0 < Yq - (j : ℚ) := by linarith
      have h1 : B ≤ B * (5 / 100) / (Yq - (k : ℚ)) * (k : ℚ) := by linarith
      have h2 := depletion_extract B (5 / 100) Yq (k : ℚ) hBpos hpk h1
      have h3 : Yq - (j : ℚ) ≤ (5 / 100) * (j : ℚ) := by linarith
      have h4 := depletion_pack B (5 / 100) Yq (j : ℚ) hB hpj h3
      linarith
  · rw [← hB0]
    split_ifs <;> simp

open MockApi in
/-- Once the optimized-strategy end-of-year balance hits `0`, it is `0`
at every later in-horizon year. -/
theorem optimized_zero_persists (s : ScenarioInput) (cy : ℤ)
    (hB : 0 ≤ s.rrsp_balance) (k j : ℕ) (hkj : k ≤ j)
    (hj : (j : ℚ) < (s.life_expectancy_years : ℚ))
    (h0 : (optimizedYearRecord s cy k).end_rrif = 0) :
    (optimizedYearRecord s cy j).end_rrif = 0 := by
  rw [optimizedYearRecord_end_rrif, max_eq_left_iff] at h0
  rw [optimizedYearRecord_end_rrif, max_eq_left_iff]
  set B := s.rrsp_balance with hBdef
  set Yq := (s.life_expectancy_years : ℚ) with hYdef
  have hkj' : (k : ℚ) ≤ (j : ℚ) := by exact_mod_cast hkj
  have hkq : (k : ℚ) < Yq := lt_of_le_of_lt hkj' hj
  have hk0 : (0 : ℚ) ≤ (k : ℚ) := Nat.cast_nonneg k
  rcases hB.lt_or_eq with hBpos | hB0
  · have hpk : 0 < Yq - (k : ℚ) := by linarith
    have hpj : 0 < Yq - (j : ℚ) := by linarith
    have hkreg : ¬ ((k : ℚ) < Yq / 3) := by
      intro hkc
      rw [if_pos hkc] at h0
      have h1 : B ≤ B * (8 / 100) / (Yq - (k : ℚ)) * (k : ℚ) := by linarith
      have h2 := depletion_extract B (8 / 100) Yq (k : ℚ) hBpos hpk h1
      linarith
    have hjreg : ¬ ((j : ℚ) < Yq / 3) := fun hjc =>
      hkreg (lt_of_le_of_lt hkj' hjc)
    rw [if_neg hkreg] at h0
    rw [if_neg hjreg]
    have h1 : B ≤ B * (4 / 100) / (Yq - (k : ℚ)) * (k : ℚ) := by linarith
    have h2 := depletion_extract B (4 / 100) Yq (k : ℚ) hBpos hpk h1
    have h3 : Yq - (j : ℚ) ≤ (4 / 100) * (j : ℚ) := by linarith
    have h4 := depletion_pack B (4 / 100) Yq (j : ℚ) hB hpj h3
    linarith
  · rw [← hB0]
    split_ifs <;> simp

open MockApi in
/-- C6: after the minimum-strategy balance first reaches exactly `0`
(year 40 of a 42-year horizon on balance 100), the next year still
withdraws a positive amount, refuting "zero withdrawal for all later
years". -/
theorem c6_counterexample :
    ((minimumYearlyData (mkScenario 100 42 65) 2025).get
        ⟨40, by rw [minimumYearlyData_length]; decide⟩).end_rrif = 0 ∧
      ((minimumYearlyData (mkScenario 100 42 65) 2025).get
        ⟨41, by rw [minimumYearlyData_length]; decide⟩).withdrawal_amount ≠ 0 := by
  constructor
  · rw [minimumYearlyData_get, minimumYearRecord_end_rrif]
    norm_num [mkScenario]
  · rw [minimumYearlyData_get, minimumYearRecord_withdrawal]
    norm_num [mkScenario]

open MockApi in
/-- C6 (amended): with a non-negative starting balance, once either
strategy's reported end-of-year balance reaches `0` it stays `0` for
every later year of the horizon, and the run completes without an error
(the generator returns a response); the later withdrawal amounts,
however, need not be `0`, and no growth is modelled at all. -/
theorem c6_zero_balance_absorbing (s : ScenarioInput) (cy : ℤ)
    (hB : 0 ≤ s.rrsp_balance) (k j : ℕ) (hkj : k ≤ j)
    (hkm : k < (minimumYearlyData s cy).length)
    (hjm : j < (minimumYearlyData s cy).length)
    (hko : k < (optimizedYearlyData s cy).length)
    (hjo : j < (optimizedYearlyData s cy).length) :
    (((minimumYearlyData s cy).get ⟨k, hkm⟩).end_rrif = 0 →
        ((minimumYearlyData s cy).get ⟨j, hjm⟩).end_rrif = 0) ∧
      (((optimizedYearlyData s cy).get ⟨k, hko⟩).end_rrif = 0 →
        ((optimizedYearlyData s cy).get ⟨j, hjo⟩).end_rrif = 0) ∧
      (∃ resp, generateMockAdvice s cy = Except.ok resp) := by
  have hjn : j < s.life_expectancy_years.toNat := by
    rwa [minimumYearlyData_length] at hjm
  have hjq : (j : ℚ) < (s.life_expectancy_years : ℚ) := by
    have h : (j : ℤ) < s.life_expectancy_years := by omega
    exact_mod_cast h
  refine ⟨?_, ?_, ?_⟩
  · intro h0
    rw [minimumYearlyData_get] at h0
    rw [minimumYearlyData_get]
    exact minimum_zero_persists s cy hB k j hkj hjq h0
  · intro h0
    rw [optimizedYearlyData_get] at h0
    rw [optimizedYearlyData_get]
    exact optimized_zero_persists s cy hB k j hkj hjq h0
  · have hm : minimumYearlyData s cy ≠ [] := by
      intro he
      rw [he] at hkm
      simp at hkm
    have ho : optimizedYearlyData s cy ≠ [] := by
      intro he
      rw [he] at hko
      simp at hko
    obtain ⟨a, ha⟩ : ∃ a, (minimumYearlyData s cy).getLast? = some a := by
      cases hL : (minimumYearlyData s cy).getLast? with
      | none => exact absurd (List.getLast?_eq_none_iff.mp hL) hm
      | some a => exact ⟨a, rfl⟩
    obtain ⟨b, hb⟩ : ∃ b, (optimizedYearlyData s cy).getLast? = some b := by
      cases hL : (optimizedYearlyData s cy).getLast? with
      | none => exact absurd (List.getLast?_eq_none_iff.mp hL) ho
      | some b => exact ⟨b, rfl⟩
    simp only [generateMockAdvice, adviceFrom, ha, hb]
    exact ⟨_, rfl⟩

open MockApi in
/-- Witness for C6 (amended) at the zero-balance two-year scenario. -/
theorem c6_zero_balance_absorbing_witness :
    (((minimumYearlyData (mkScenario 0 2 65) 2025).get
        ⟨0, by rw [minimumYearlyData_length]; decide⟩).end_rrif = 0 →
      ((minimumYearlyData (mkScenario 0 2 65) 2025).get
        ⟨1, by rw [minimumYearlyData_length]; decide⟩).end_rrif = 0) ∧
    (((optimizedYearlyData (mkScenario 0 2 65) 2025).get
        ⟨0, by rw [optimizedYearlyData_length]; decide⟩).end_rrif = 0 →
      ((optimizedYearlyData (mkScenario 0 2 65) 2025).get
        ⟨1, by rw [optimizedYearlyData_length]; decide⟩).end_rrif = 0) ∧
    (∃ resp, generateMockAdvice (mkScenario 0 2 65) 2025 = Except.ok resp) :=
  c6_zero_balance_absorbing (mkScenario 0 2 65) 2025
    (by norm_num [mkScenario]) 0 1 (by norm_num)
    (by rw [minimumYearlyData_length]; decide)
    (by rw [minimumYearlyData_length]; decide)
    (by rw [optimizedYearlyData_length]; decide)
    (by rw [optimizedYearlyData_length]; decide)
